import Mathlib

/-!
Verification of the user-account management service
(repository IS601_Module10_Jyothsna).

The repository's reviewable sources are the schema re-export
`app/schemas/user.py` and the integration test suite
`tests/test_integration.py`.  The application code itself
(`app.main`, `app.models`, `app.database`, the service functions)
is not part of the reviewed sources, so every operation below is
modelled from the specification's description of the service and
HTTP layers, and validated against the behaviours the integration
tests pin down.
-/

namespace UserService

/-- The persisted `User` row: `id`, `username`, `email`,
`password_hash`, `created_at` (timestamp modelled as a natural). -/
structure User where
  id : Nat
  username : String
  email : String
  password_hash : String
  created_at : Nat
deriving Repr, DecidableEq

/-- The `UserCreate` request shape: `username`, `email`, `password`. -/
structure UserCreate where
  username : String
  email : String
  password : String
deriving Repr, DecidableEq

/-- The `UserRead` response shape: `id`, `username`, `email`,
`created_at`; no credential fields by construction. -/
structure UserRead where
  id : Nat
  username : String
  email : String
  created_at : Nat
deriving Repr, DecidableEq

/-- Project a stored row to its outward read-shape. -/
def User.toRead (u : User) : UserRead :=
  { id := u.id, username := u.username, email := u.email, created_at := u.created_at }

/-- Modelled from the spec: the bcrypt-family salted one-way hash used by
`create_user` (the hashing code is not among the reviewed sources).  Real
bcrypt is abstracted as a tagging function: the output carries the
algorithm tag `$2b$` (the format the test suite checks), a cost marker,
the per-record salt and an algorithm-dependent digest of the password.
The properties the claims rely on — output non-empty, output distinct
from the plaintext input, output tagged with the `$2b$` format —
hold of this model as of real bcrypt. -/
def bcryptHash (salt password : String) : String :=
  "$2b$" ++ ("12$" ++ salt ++ "$" ++ password)

/-- Modelled from the spec: "valid email syntax" field validation
(the schema definition is not among the reviewed sources).  An email is
a single `@` separating a non-empty local part from a non-empty domain
that contains an interior dot. -/
def validEmail (e : String) : Bool :=
  match e.toList.splitOn '@' with
  | [loc, dom] =>
      !loc.isEmpty && !dom.isEmpty && dom.contains '.' &&
      dom.head? != some '.' && dom.getLast? != some '.'
  | _ => false

/-- Modelled from the spec: the `UserCreate` field constraints —
username at least 3 characters, valid email syntax, password at
least 8 characters. -/
def validUserCreate (uc : UserCreate) : Bool :=
  3 ≤ uc.username.length && validEmail uc.email && 8 ≤ uc.password.length

/-- Service-layer outcomes other than success: a uniqueness conflict
(surfaced as HTTP 400) or a missing row (surfaced as HTTP 404),
each carrying a human-readable detail message. -/
inductive ServiceError where
  | conflict (detail : String)
  | notFound (detail : String)
deriving Repr, DecidableEq

/-- The persistent state: the live user rows in insertion order, the
next storage-generated id, and a clock supplying `created_at` stamps. -/
structure AppState where
  users : List User
  nextId : Nat
  clock : Nat
deriving Repr, DecidableEq

/-- The empty initial state. -/
def AppState.init : AppState :=
  { users := [], nextId := 1, clock := 0 }

/-- Modelled from the spec: `create_user` checks username uniqueness,
then email uniqueness (in that order), then hashes the password and
persists a new row; conflicts report "Username already registered" /
"Email already registered".  The salt for the per-record salted hash is
passed in by the caller (it models the randomness source). -/
def create_user (salt : String) (data : UserCreate) (s : AppState) :
    Except ServiceError UserRead × AppState :=
  if s.users.any (fun u => u.username == data.username) then
    (Except.error (ServiceError.conflict "Username already registered"), s)
  else if s.users.any (fun u => u.email == data.email) then
    (Except.error (ServiceError.conflict "Email already registered"), s)
  else
    let u : User :=
      { id := s.nextId, username := data.username, email := data.email,
        password_hash := bcryptHash salt data.password, created_at := s.clock }
    (Except.ok u.toRead,
     { users := s.users ++ [u], nextId := s.nextId + 1, clock := s.clock + 1 })

/-- Modelled from the spec: `list_users` returns all users in ascending
insertion order. -/
def list_users (s : AppState) : List UserRead :=
  s.users.map User.toRead

/-- Modelled from the spec: `get_user_by_id` is an exact-match lookup
failing with "not found" when no row matches. -/
def get_user_by_id (id : Nat) (s : AppState) : Except ServiceError UserRead :=
  match s.users.find? (fun u => u.id == id) with
  | some u => Except.ok u.toRead
  | none => Except.error (ServiceError.notFound "User not found")

/-- Modelled from the spec: `get_user_by_username` is an exact-match
lookup failing with "not found" when absent. -/
def get_user_by_username (name : String) (s : AppState) : Except ServiceError UserRead :=
  match s.users.find? (fun u => u.username == name) with
  | some u => Except.ok u.toRead
  | none => Except.error (ServiceError.notFound "User not found")

/-- Modelled from the spec: `delete_user` removes the row with the given
id, failing with "not found" when the id does not exist. -/
def delete_user (id : Nat) (s : AppState) : Except ServiceError Unit × AppState :=
  if s.users.any (fun u => u.id == id) then
    (Except.ok (), { s with users := s.users.filter (fun u => u.id != id) })
  else
    (Except.error (ServiceError.notFound "User not found"), s)

/-- A JSON value, as carried by HTTP request and response bodies. -/
inductive Json where
  | null : Json
  | str : String → Json
  | num : Nat → Json
  | arr : List Json → Json
  | obj : List (String × Json) → Json
deriving Repr

/-- The field names of a JSON object body (empty for non-objects). -/
def Json.objKeys : Json → List String
  | Json.obj fs => fs.map Prod.fst
  | _ => []

/-- Look up the `detail` field of an error body. -/
def Json.detail : Json → Option Json
  | Json.obj fs => (fs.find? (fun f => f.1 == "detail")).map Prod.snd
  | _ => none

/-- Serialize the read-shape: exactly `id`, `username`, `email`,
`created_at`. -/
def UserRead.toJson (r : UserRead) : Json :=
  Json.obj [("id", Json.num r.id), ("username", Json.str r.username),
            ("email", Json.str r.email), ("created_at", Json.num r.created_at)]

/-- An HTTP response: status code and JSON body
(`Json.null` for an empty body). -/
structure Response where
  status : Nat
  body : Json

/-- Modelled from the spec: POST `/users/` — field validation first
(422 on failure, before the service layer runs), then `create_user`
(400 on conflict, 201 with the `UserRead` body on success). -/
def postUsers (salt : String) (data : UserCreate) (s : AppState) :
    Response × AppState :=
  if validUserCreate data then
    match create_user salt data s with
    | (Except.ok r, s') => ({ status := 201, body := r.toJson }, s')
    | (Except.error (ServiceError.conflict d), s') =>
        ({ status := 400, body := Json.obj [("detail", Json.str d)] }, s')
    | (Except.error (ServiceError.notFound d), s') =>
        ({ status := 404, body := Json.obj [("detail", Json.str d)] }, s')
  else
    ({ status := 422, body := Json.obj [("detail", Json.str "validation error")] }, s)

/-- Modelled from the spec: GET `/users/` — 200 with the array of
read-shapes. -/
def getUsers (s : AppState) : Response :=
  { status := 200, body := Json.arr ((list_users s).map UserRead.toJson) }

/-- Modelled from the spec: GET `/users/{id}` — 200 with the read-shape,
404 when absent. -/
def getUserById (id : Nat) (s : AppState) : Response :=
  match get_user_by_id id s with
  | Except.ok r => { status := 200, body := r.toJson }
  | Except.error (ServiceError.notFound d) =>
      { status := 404, body := Json.obj [("detail", Json.str d)] }
  | Except.error (ServiceError.conflict d) =>
      { status := 400, body := Json.obj [("detail", Json.str d)] }

/-- Modelled from the spec: GET `/users/username/{name}` — 200 with the
read-shape, 404 when absent. -/
def getUserByUsername (name : String) (s : AppState) : Response :=
  match get_user_by_username name s with
  | Except.ok r => { status := 200, body := r.toJson }
  | Except.error (ServiceError.notFound d) =>
      { status := 404, body := Json.obj [("detail", Json.str d)] }
  | Except.error (ServiceError.conflict d) =>
      { status := 400, body := Json.obj [("detail", Json.str d)] }

/-- Modelled from the spec: DELETE `/users/{id}` — 204 with an empty
body on success, 404 when the id does not exist. -/
def deleteUser (id : Nat) (s : AppState) : Response × AppState :=
  match delete_user id s with
  | (Except.ok _, s') => ({ status := 204, body := Json.null }, s')
  | (Except.error (ServiceError.notFound d), s') =>
      ({ status := 404, body := Json.obj [("detail", Json.str d)] }, s')
  | (Except.error (ServiceError.conflict d), s') =>
      ({ status := 400, body := Json.obj [("detail", Json.str d)] }, s')

/-- States reachable from the empty initial state by the two
state-changing operations (the lookups and the listing are pure). -/
inductive Reachable : AppState → Prop where
  | init : Reachable AppState.init
  | create (salt : String) (data : UserCreate) {s : AppState} :
      Reachable s → Reachable (create_user salt data s).2
  | delete (id : Nat) {s : AppState} :
      Reachable s → Reachable (delete_user id s).2

/-- The structural invariant of the store: row ids strictly increase in
insertion order, stay below the id counter, and every stored credential
is a salted hash produced by `bcryptHash`. -/
def WF (s : AppState) : Prop :=
  s.users.Pairwise (fun a b => a.id < b.id) ∧
  (∀ u ∈ s.users, u.id < s.nextId) ∧
  (∀ u ∈ s.users, ∃ salt p, u.password_hash = bcryptHash salt p)

/-- `listHasPre pat l`: `pat` occurs at the very start of `l`. -/
def listHasPre : List Char → List Char → Bool
  | [], _ => true
  | _ :: _, [] => false
  | a :: as, b :: bs => a == b && listHasPre as bs

/-- `listHasSub pat l`: `pat` occurs contiguously somewhere in `l`. -/
def listHasSub (pat : List Char) : List Char → Bool
  | [] => pat.isEmpty
  | c :: cs => listHasPre pat (c :: cs) || listHasSub pat cs

/-- A response `mentions` a message when its body has a string `detail`
field in which the message occurs as a contiguous substring (the
integration tests assert `msg in response.json()["detail"]`). -/
def mentions (r : Response) (msg : String) : Bool :=
  match r.body.detail with
  | some (Json.str d) => listHasSub msg.toList d.toList
  | _ => false

/-- The row `create_user` persists when both uniqueness checks pass. -/
def newRow (salt : String) (d : UserCreate) (s : AppState) : User :=
  { id := s.nextId, username := d.username, email := d.email,
    password_hash := bcryptHash salt d.password, created_at := s.clock }

/-- The store holding exactly the first user the test suite creates:
the state `create_user` produces from the empty store for the request
`{"username": "testuser", "email": "test@example.com",
"password": "pass123456"}` (salt `"s1"`). -/
def sampleStore : AppState :=
  { users := [{ id := 1, username := "testuser", email := "test@example.com",
                password_hash := bcryptHash "s1" "pass123456", created_at := 0 }],
    nextId := 2, clock := 1 }

/-! ### Case analysis of `create_user` and `postUsers` -/

theorem create_user_dup_username (salt : String) {d : UserCreate} {s : AppState}
    (h : ∃ u ∈ s.users, u.username = d.username) :
    create_user salt d s =
      (Except.error (ServiceError.conflict "Username already registered"), s) := by
  have ha : s.users.any (fun u => u.username == d.username) = true := by
    simp only [List.any_eq_true, beq_iff_eq]
    exact h
  simp [create_user, ha]

theorem create_user_dup_email (salt : String) {d : UserCreate} {s : AppState}
    (hu : ∀ u ∈ s.users, u.username ≠ d.username)
    (he : ∃ u ∈ s.users, u.email = d.email) :
    create_user salt d s =
      (Except.error (ServiceError.conflict "Email already registered"), s) := by
  have ha : s.users.any (fun u => u.username == d.username) = false := by
    simp only [List.any_eq_false, beq_iff_eq]
    exact hu
  have hb : s.users.any (fun u => u.email == d.email) = true := by
    simp only [List.any_eq_true, beq_iff_eq]
    exact he
  simp [create_user, ha, hb]

theorem create_user_ok (salt : String) {d : UserCreate} {s : AppState}
    (hu : ∀ u ∈ s.users, u.username ≠ d.username)
    (he : ∀ u ∈ s.users, u.email ≠ d.email) :
    create_user salt d s =
      (Except.ok (newRow salt d s).toRead,
       { users := s.users ++ [newRow salt d s],
         nextId := s.nextId + 1, clock := s.clock + 1 }) := by
  have ha : s.users.any (fun u => u.username == d.username) = false := by
    simp only [List.any_eq_false, beq_iff_eq]
    exact hu
  have hb : s.users.any (fun u => u.email == d.email) = false := by
    simp only [List.any_eq_false, beq_iff_eq]
    exact he
  simp [create_user, ha, hb, newRow]

theorem postUsers_invalid (salt : String) (d : UserCreate) (s : AppState)
    (hv : validUserCreate d = false) :
    postUsers salt d s =
      ({ status := 422, body := Json.obj [("detail", Json.str "validation error")] }, s) := by
  simp [postUsers, hv]

theorem postUsers_dup_username (salt : String) {d : UserCreate} {s : AppState}
    (hv : validUserCreate d = true)
    (h : ∃ u ∈ s.users, u.username = d.username) :
    postUsers salt d s =
      ({ status := 400,
         body := Json.obj [("detail", Json.str "Username already registered")] }, s) := by
  simp [postUsers, hv, create_user_dup_username salt h]

theorem postUsers_dup_email (salt : String) {d : UserCreate} {s : AppState}
    (hv : validUserCreate d = true)
    (hu : ∀ u ∈ s.users, u.username ≠ d.username)
    (he : ∃ u ∈ s.users, u.email = d.email) :
    postUsers salt d s =
      ({ status := 400,
         body := Json.obj [("detail", Json.str "Email already registered")] }, s) := by
  simp [postUsers, hv, create_user_dup_email salt hu he]

theorem postUsers_ok (salt : String) {d : UserCreate} {s : AppState}
    (hv : validUserCreate d = true)
    (hu : ∀ u ∈ s.users, u.username ≠ d.username)
    (he : ∀ u ∈ s.users, u.email ≠ d.email) :
    postUsers salt d s =
      ({ status := 201, body := (newRow salt d s).toRead.toJson },
       { users := s.users ++ [newRow salt d s],
         nextId := s.nextId + 1, clock := s.clock + 1 }) := by
  simp [postUsers, hv, create_user_ok salt hu he]

theorem postUsers_201_inv {salt : String} {d : UserCreate} {s : AppState}
    (h : (postUsers salt d s).1.status = 201) :
    validUserCreate d = true ∧
    (∀ u ∈ s.users, u.username ≠ d.username) ∧
    (∀ u ∈ s.users, u.email ≠ d.email) := by
  by_cases hv : validUserCreate d = true
  · by_cases hu : ∀ u ∈ s.users, u.username ≠ d.username
    · by_cases he : ∀ u ∈ s.users, u.email ≠ d.email
      · exact ⟨hv, hu, he⟩
      · push_neg at he
        rw [postUsers_dup_email salt hv hu he] at h
        simp at h
    · push_neg at hu
      rw [postUsers_dup_username salt hv hu] at h
      simp at h
  · rw [postUsers_invalid salt d s (Bool.not_eq_true _ ▸ hv)] at h
    simp at h

/-! ### The structural invariant holds in every reachable state -/

theorem wf_init : WF AppState.init := by
  refine ⟨List.Pairwise.nil, ?_, ?_⟩ <;> intro u hu <;> simp [AppState.init] at hu

theorem wf_create (salt : String) (d : UserCreate) {s : AppState} (h : WF s) :
    WF (create_user salt d s).2 := by
  obtain ⟨h1, h2, h3⟩ := h
  by_cases hu : ∀ u ∈ s.users, u.username ≠ d.username
  · by_cases he : ∀ u ∈ s.users, u.email ≠ d.email
    · rw [create_user_ok salt hu he]
      refine ⟨?_, ?_, ?_⟩
      · rw [List.pairwise_append]
        refine ⟨h1, List.pairwise_singleton _ _, ?_⟩
        intro a ha b hb
        rw [List.mem_singleton] at hb
        subst hb
        exact h2 a ha
      · intro u hmem
        rcases List.mem_append.mp hmem with hmem | hmem
        · exact Nat.lt_succ_of_lt (h2 u hmem)
        · rw [List.mem_singleton] at hmem
          subst hmem
          exact Nat.lt_succ_self _
      · intro u hmem
        rcases List.mem_append.mp hmem with hmem | hmem
        · exact h3 u hmem
        · rw [List.mem_singleton] at hmem
          subst hmem
          exact ⟨salt, d.password, rfl⟩
    · push_neg at he
      rw [create_user_dup_email salt hu he]
      exact ⟨h1, h2, h3⟩
  · push_neg at hu
    rw [create_user_dup_username salt hu]
    exact ⟨h1, h2, h3⟩

theorem wf_delete (id : Nat) {s : AppState} (h : WF s) :
    WF (delete_user id s).2 := by
  obtain ⟨h1, h2, h3⟩ := h
  by_cases ha : s.users.any (fun u => u.id == id) = true
  · have : delete_user id s =
        (Except.ok (), { s with users := s.users.filter (fun u => u.id != id) }) := by
      simp [delete_user, ha]
    rw [this]
    refine ⟨List.Pairwise.sublist (List.filter_sublist _) h1, ?_, ?_⟩
    · intro u hmem
      exact h2 u (List.mem_filter.mp hmem).1
    · intro u hmem
      exact h3 u (List.mem_filter.mp hmem).1
  · have : delete_user id s = (Except.error (ServiceError.notFound "User not found"), s) := by
      simp only [delete_user]
      rw [if_neg]
      intro hc
      exact ha hc
    rw [this]
    exact ⟨h1, h2, h3⟩

theorem reachable_wf {s : AppState} (h : Reachable s) : WF s := by
  induction h with
  | init => exact wf_init
  | create salt d _ ih => exact wf_create salt d ih
  | delete id _ ih => exact wf_delete id ih

/-! ### Properties of the modelled salted hash -/

theorem bcryptHash_length (salt p : String) :
    (bcryptHash salt p).length = 8 + salt.length + p.length := by
  simp only [bcryptHash, String.length_append]
  have h4 : ("$2b$" : String).length = 4 := by decide
  have h3 : ("12$" : String).length = 3 := by decide
  have h1 : ("$" : String).length = 1 := by decide
  rw [h4, h3, h1]
  omega

theorem bcryptHash_ne_password (salt p : String) : bcryptHash salt p ≠ p := by
  intro h
  have hl := congrArg String.length h
  rw [bcryptHash_length] at hl
  omega

theorem bcryptHash_ne_empty (salt p : String) : bcryptHash salt p ≠ "" := by
  intro h
  have hl := congrArg String.length h
  rw [bcryptHash_length] at hl
  have h0 : ("" : String).length = 0 := by decide
  rw [h0] at hl
  omega

theorem bcryptHash_tag (salt p : String) :
    ∃ rest, bcryptHash salt p = "$2b$" ++ rest :=
  ⟨"12$" ++ salt ++ "$" ++ p, rfl⟩

/-! ### Substring facts about error details -/

theorem listHasPre_self (l : List Char) : listHasPre l l = true := by
  induction l with
  | nil => rfl
  | cons c cs ih => simp [listHasPre, ih]

theorem listHasSub_self (l : List Char) : listHasSub l l = true := by
  cases l with
  | nil => rfl
  | cons c cs => simp [listHasSub, listHasPre_self]

theorem mentions_detail (st : Nat) (m : String) :
    mentions { status := st, body := Json.obj [("detail", Json.str m)] } m = true := by
  simp [mentions, Json.detail, List.find?, listHasSub_self]

/-! ### The claims -/

/-- C1: for every creation request whose fields pass validation and
collide with no live user, POST `/users/` answers 201 with a body whose
fields are exactly `id`, `username`, `email`, `created_at` — in
particular the body never carries a `password` or `password_hash`
field. -/
theorem create_valid_unique_fields (salt : String) (d : UserCreate) (s : AppState)
    (hv : validUserCreate d = true)
    (hu : ∀ u ∈ s.users, u.username ≠ d.username)
    (he : ∀ u ∈ s.users, u.email ≠ d.email) :
    (postUsers salt d s).1.status = 201 ∧
    (postUsers salt d s).1.body.objKeys = ["id", "username", "email", "created_at"] ∧
    "password" ∉ (postUsers salt d s).1.body.objKeys ∧
    "password_hash" ∉ (postUsers salt d s).1.body.objKeys := by
  rw [postUsers_ok salt hv hu he]
  refine ⟨rfl, rfl, ?_, ?_⟩ <;> simp [UserRead.toJson, Json.objKeys]

/-- Witness for C1 at the test suite's example request against the
empty store. -/
theorem create_valid_unique_fields_witness :
    (postUsers "s1" ⟨"testuser", "test@example.com", "securepass123"⟩ AppState.init).1.status = 201 ∧
    (postUsers "s1" ⟨"testuser", "test@example.com", "securepass123"⟩ AppState.init).1.body.objKeys
      = ["id", "username", "email", "created_at"] ∧
    "password" ∉
      (postUsers "s1" ⟨"testuser", "test@example.com", "securepass123"⟩ AppState.init).1.body.objKeys ∧
    "password_hash" ∉
      (postUsers "s1" ⟨"testuser", "test@example.com", "securepass123"⟩ AppState.init).1.body.objKeys :=
  create_valid_unique_fields "s1" ⟨"testuser", "test@example.com", "securepass123"⟩ AppState.init
    (by decide) (by decide) (by decide)

/-- C2: in every reachable state, every live user row stores a
`password_hash` that is non-empty, carries the salted-bcrypt format tag
`$2b$`, and is the salted hash of some submitted plaintext from which
it always differs. -/
theorem stored_hash_secure (s : AppState) (hr : Reachable s) :
    ∀ u ∈ s.users,
      u.password_hash ≠ "" ∧
      (∃ rest, u.password_hash = "$2b$" ++ rest) ∧
      ∃ salt p, u.password_hash = bcryptHash salt p ∧ bcryptHash salt p ≠ p := by
  intro u hu
  obtain ⟨salt, p, hh⟩ := (reachable_wf hr).2.2 u hu
  exact ⟨hh ▸ bcryptHash_ne_empty salt p, hh ▸ bcryptHash_tag salt p,
    salt, p, hh, bcryptHash_ne_password salt p⟩

/-- Witness for C2: the row created by the password-security test. -/
theorem stored_hash_secure_witness :
    (newRow "abc" ⟨"testuser", "test@example.com", "plainpassword123"⟩ AppState.init).password_hash
      ≠ "" ∧
    (∃ rest,
      (newRow "abc" ⟨"testuser", "test@example.com", "plainpassword123"⟩ AppState.init).password_hash
        = "$2b$" ++ rest) ∧
    ∃ salt p,
      (newRow "abc" ⟨"testuser", "test@example.com", "plainpassword123"⟩ AppState.init).password_hash
        = bcryptHash salt p ∧ bcryptHash salt p ≠ p :=
  stored_hash_secure _
    (Reachable.create "abc" ⟨"testuser", "test@example.com", "plainpassword123"⟩ Reachable.init)
    _ (by decide)

/-- C5: when the requested username and email both collide with live
users, `create_user` reports the username conflict and not the email
conflict — username uniqueness is checked first. -/
theorem username_conflict_priority (salt : String) (d : UserCreate) (s : AppState)
    (hu : ∃ u ∈ s.users, u.username = d.username)
    (_he : ∃ u ∈ s.users, u.email = d.email) :
    create_user salt d s =
      (Except.error (ServiceError.conflict "Username already registered"), s) ∧
    create_user salt d s ≠
      (Except.error (ServiceError.conflict "Email already registered"), s) := by
  refine ⟨create_user_dup_username salt hu, ?_⟩
  rw [create_user_dup_username salt hu]
  intro hc
  have h1 := congrArg Prod.fst hc
  injection h1 with h2
  injection h2 with h3
  exact absurd h3 (by decide)

/-- Witness for C5: a second request reusing both the username and the
email of an existing user. -/
theorem username_conflict_priority_witness :
    create_user "s2" ⟨"testuser", "test@example.com", "otherpass123"⟩
      (create_user "s1" ⟨"testuser", "test@example.com", "securepass123"⟩ AppState.init).2 =
      (Except.error (ServiceError.conflict "Username already registered"),
       (create_user "s1" ⟨"testuser", "test@example.com", "securepass123"⟩ AppState.init).2) ∧
    create_user "s2" ⟨"testuser", "test@example.com", "otherpass123"⟩
      (create_user "s1" ⟨"testuser", "test@example.com", "securepass123"⟩ AppState.init).2 ≠
      (Except.error (ServiceError.conflict "Email already registered"),
       (create_user "s1" ⟨"testuser", "test@example.com", "securepass123"⟩ AppState.init).2) :=
  username_conflict_priority "s2" ⟨"testuser", "test@example.com", "otherpass123"⟩
    (create_user "s1" ⟨"testuser", "test@example.com", "securepass123"⟩ AppState.init).2
    (by decide) (by decide)

/-- C6: a creation request with a username shorter than 3 characters,
a password shorter than 8 characters, or a malformed email is rejected
with 422 and the state is left unchanged — the service layer is never
reached, so no user is created. -/
theorem invalid_create_rejected (salt : String) (d : UserCreate) (s : AppState)
    (h : d.username.length < 3 ∨ d.password.length < 8 ∨ validEmail d.email = false) :
    (postUsers salt d s).1.status = 422 ∧ (postUsers salt d s).2 = s := by
  have hv : validUserCreate d = false := by
    rcases h with h | h | h
    · simp [validUserCreate, decide_eq_false (Nat.not_le.mpr h)]
    · simp [validUserCreate, decide_eq_false (Nat.not_le.mpr h)]
    · simp [validUserCreate, h]
  rw [postUsers_invalid salt d s hv]
  exact ⟨rfl, rfl⟩

/-- Witness for C6: the test suite's short-username request. -/
theorem invalid_create_rejected_witness :
    (postUsers "s1" ⟨"ab", "test@example.com", "securepass123"⟩ AppState.init).1.status = 422 ∧
    (postUsers "s1" ⟨"ab", "test@example.com", "securepass123"⟩ AppState.init).2 = AppState.init :=
  invalid_create_rejected "s1" ⟨"ab", "test@example.com", "securepass123"⟩ AppState.init
    (Or.inl (by decide))

/-- C3: after a first creation succeeds with 201, a second well-formed
request reusing its username (whatever its email) fails with 400, its
detail mentions "Username already registered", and the user set is
unchanged. -/
theorem duplicate_username_conflict (salt1 salt2 : String) (d1 d2 : UserCreate) (s : AppState)
    (hv2 : validUserCreate d2 = true)
    (hname : d2.username = d1.username)
    (h201 : (postUsers salt1 d1 s).1.status = 201) :
    (postUsers salt2 d2 (postUsers salt1 d1 s).2).1.status = 400 ∧
    mentions (postUsers salt2 d2 (postUsers salt1 d1 s).2).1 "Username already registered" = true ∧
    (postUsers salt2 d2 (postUsers salt1 d1 s).2).2.users = (postUsers salt1 d1 s).2.users := by
  obtain ⟨hv1, hu1, he1⟩ := postUsers_201_inv h201
  have hs1 : (postUsers salt1 d1 s).2 =
      { users := s.users ++ [newRow salt1 d1 s],
        nextId := s.nextId + 1, clock := s.clock + 1 } := by
    rw [postUsers_ok salt1 hv1 hu1 he1]
  rw [hs1]
  have hdup : ∃ u ∈ s.users ++ [newRow salt1 d1 s], u.username = d2.username :=
    ⟨newRow salt1 d1 s, by simp, by simp [newRow, hname]⟩
  rw [postUsers_dup_username salt2 hv2 hdup]
  exact ⟨rfl, mentions_detail 400 "Username already registered", rfl⟩

/-- Witness for C3: the test suite's duplicate-username scenario. -/
theorem duplicate_username_conflict_witness :
    (postUsers "s2" ⟨"testuser", "test2@example.com", "securepass123"⟩
      (postUsers "s1" ⟨"testuser", "test1@example.com", "securepass123"⟩ AppState.init).2).1.status
      = 400 ∧
    mentions (postUsers "s2" ⟨"testuser", "test2@example.com", "securepass123"⟩
      (postUsers "s1" ⟨"testuser", "test1@example.com", "securepass123"⟩ AppState.init).2).1
      "Username already registered" = true ∧
    (postUsers "s2" ⟨"testuser", "test2@example.com", "securepass123"⟩
      (postUsers "s1" ⟨"testuser", "test1@example.com", "securepass123"⟩ AppState.init).2).2.users
      = (postUsers "s1" ⟨"testuser", "test1@example.com", "securepass123"⟩ AppState.init).2.users :=
  duplicate_username_conflict "s1" "s2"
    ⟨"testuser", "test1@example.com", "securepass123"⟩
    ⟨"testuser", "test2@example.com", "securepass123"⟩
    AppState.init (by decide) (by decide) (by decide)

/-- C4 counterexample: two valid creation attempts share the email
`test@example.com` (and also the username), the first succeeds with
201, the second fails with 400 — but its detail is the username
conflict and does not mention "Email already registered", refuting
"regardless of username". -/
theorem duplicate_email_counterexample :
    (postUsers "s1" ⟨"testuser", "test@example.com", "securepass123"⟩ AppState.init).1.status
      = 201 ∧
    (postUsers "s2" ⟨"testuser", "test@example.com", "securepass456"⟩
      (postUsers "s1" ⟨"testuser", "test@example.com", "securepass123"⟩ AppState.init).2).1.status
      = 400 ∧
    mentions (postUsers "s2" ⟨"testuser", "test@example.com", "securepass456"⟩
      (postUsers "s1" ⟨"testuser", "test@example.com", "securepass123"⟩ AppState.init).2).1
      "Email already registered" = false ∧
    mentions (postUsers "s2" ⟨"testuser", "test@example.com", "securepass456"⟩
      (postUsers "s1" ⟨"testuser", "test@example.com", "securepass123"⟩ AppState.init).2).1
      "Username already registered" = true := by
  refine ⟨?_, ?_, ?_, ?_⟩ <;> decide

/-- C4 (amended): after a first creation succeeds with 201, a second
well-formed request reusing its email, whose username is not taken by
any live user, fails with 400, its detail mentions "Email already
registered", and the user set is unchanged. -/
theorem duplicate_email_conflict (salt1 salt2 : String) (d1 d2 : UserCreate) (s : AppState)
    (hv2 : validUserCreate d2 = true)
    (hemail : d2.email = d1.email)
    (hname : ∀ u ∈ (postUsers salt1 d1 s).2.users, u.username ≠ d2.username)
    (h201 : (postUsers salt1 d1 s).1.status = 201) :
    (postUsers salt2 d2 (postUsers salt1 d1 s).2).1.status = 400 ∧
    mentions (postUsers salt2 d2 (postUsers salt1 d1 s).2).1 "Email already registered" = true ∧
    (postUsers salt2 d2 (postUsers salt1 d1 s).2).2.users = (postUsers salt1 d1 s).2.users := by
  obtain ⟨hv1, hu1, he1⟩ := postUsers_201_inv h201
  have hs1 : (postUsers salt1 d1 s).2 =
      { users := s.users ++ [newRow salt1 d1 s],
        nextId := s.nextId + 1, clock := s.clock + 1 } := by
    rw [postUsers_ok salt1 hv1 hu1 he1]
  rw [hs1] at hname ⊢
  have hdup : ∃ u ∈ s.users ++ [newRow salt1 d1 s], u.email = d2.email :=
    ⟨newRow salt1 d1 s, by simp, by simp [newRow, hemail]⟩
  rw [postUsers_dup_email salt2 hv2 hname hdup]
  exact ⟨rfl, mentions_detail 400 "Email already registered", rfl⟩

/-- Witness for the amended C4: the test suite's duplicate-email
scenario with distinct usernames. -/
theorem duplicate_email_conflict_witness :
    (postUsers "s2" ⟨"testuser2", "test@example.com", "securepass123"⟩
      (postUsers "s1" ⟨"testuser1", "test@example.com", "securepass123"⟩ AppState.init).2).1.status
      = 400 ∧
    mentions (postUsers "s2" ⟨"testuser2", "test@example.com", "securepass123"⟩
      (postUsers "s1" ⟨"testuser1", "test@example.com", "securepass123"⟩ AppState.init).2).1
      "Email already registered" = true ∧
    (postUsers "s2" ⟨"testuser2", "test@example.com", "securepass123"⟩
      (postUsers "s1" ⟨"testuser1", "test@example.com", "securepass123"⟩ AppState.init).2).2.users
      = (postUsers "s1" ⟨"testuser1", "test@example.com", "securepass123"⟩ AppState.init).2.users :=
  duplicate_email_conflict "s1" "s2"
    ⟨"testuser1", "test@example.com", "securepass123"⟩
    ⟨"testuser2", "test@example.com", "securepass123"⟩
    AppState.init (by decide) (by decide) (by decide) (by decide)

/-- C7: GET `/users/` answers 200; in any reachable state the listing
is exactly the read-shapes of the live rows, strictly ascending by id;
and every successful creation appends its user to the end of the
listing, so listing after creating U1 then U2 yields `[U1, U2]`. -/
theorem list_users_ordered (s : AppState) (hr : Reachable s) :
    (getUsers s).status = 200 ∧
    list_users s = s.users.map User.toRead ∧
    List.Pairwise (fun a b => a.id < b.id) (list_users s) ∧
    ∀ (salt : String) (d : UserCreate) (r : UserRead) (s' : AppState),
      create_user salt d s = (Except.ok r, s') → list_users s' = list_users s ++ [r] := by
  obtain ⟨h1, _, _⟩ := reachable_wf hr
  refine ⟨rfl, rfl, ?_, ?_⟩
  · exact List.Pairwise.map User.toRead (fun a b hab => hab) h1
  · intro salt d r s' hc
    by_cases hu : ∀ u ∈ s.users, u.username ≠ d.username
    · by_cases he : ∀ u ∈ s.users, u.email ≠ d.email
      · rw [create_user_ok salt hu he] at hc
        injection hc with hc1 hc2
        injection hc1 with hc1
        subst hc1
        subst hc2
        simp [list_users]
      · push_neg at he
        rw [create_user_dup_email salt hu he] at hc
        injection hc with hc1 _
        exact Except.noConfusion hc1
    · push_neg at hu
      rw [create_user_dup_username salt hu] at hc
      injection hc with hc1 _
      exact Except.noConfusion hc1

/-- Witness for C7: creating `user1` then `user2` and listing yields
exactly those two users in creation order, ascending by id. -/
theorem list_users_ordered_witness :
    (getUsers (create_user "s2" ⟨"user2", "user2@example.com", "pass123456"⟩
      (create_user "s1" ⟨"user1", "user1@example.com", "pass123456"⟩ AppState.init).2).2).status
      = 200 ∧
    list_users (create_user "s2" ⟨"user2", "user2@example.com", "pass123456"⟩
      (create_user "s1" ⟨"user1", "user1@example.com", "pass123456"⟩ AppState.init).2).2
      = [⟨1, "user1", "user1@example.com", 0⟩, ⟨2, "user2", "user2@example.com", 1⟩] ∧
    List.Pairwise (fun a b => a.id < b.id)
      (list_users (create_user "s2" ⟨"user2", "user2@example.com", "pass123456"⟩
        (create_user "s1" ⟨"user1", "user1@example.com", "pass123456"⟩ AppState.init).2).2) := by
  have h := list_users_ordered
    (create_user "s2" ⟨"user2", "user2@example.com", "pass123456"⟩
      (create_user "s1" ⟨"user1", "user1@example.com", "pass123456"⟩ AppState.init).2).2
    (Reachable.create "s2" ⟨"user2", "user2@example.com", "pass123456"⟩
      (Reachable.create "s1" ⟨"user1", "user1@example.com", "pass123456"⟩ Reachable.init))
  exact ⟨h.1, by decide, h.2.2.1⟩

/-- C8: deleting an existing id answers 204 with an empty body, after
which fetching that id answers 404 and deleting it again answers 404;
deleting an id matching no user answers 404. -/
theorem delete_user_spec (id : Nat) (s : AppState) :
    ((∃ u ∈ s.users, u.id = id) →
      (deleteUser id s).1.status = 204 ∧
      (deleteUser id s).1.body = Json.null ∧
      (getUserById id (deleteUser id s).2).status = 404 ∧
      (deleteUser id (deleteUser id s).2).1.status = 404) ∧
    ((∀ u ∈ s.users, u.id ≠ id) → (deleteUser id s).1.status = 404) := by
  constructor
  · intro h
    have ha : s.users.any (fun u => u.id == id) = true := by
      simp only [List.any_eq_true, beq_iff_eq]
      exact h
    have hdel : deleteUser id s =
        ({ status := 204, body := Json.null },
         { s with users := s.users.filter (fun u => u.id != id) }) := by
      simp [deleteUser, delete_user, ha]
    rw [hdel]
    have hgone : ∀ u ∈ s.users.filter (fun u => u.id != id), u.id ≠ id := by
      intro u hu
      have := (List.mem_filter.mp hu).2
      simpa using this
    have hfind : (s.users.filter (fun u => u.id != id)).find? (fun u => u.id == id) = none :=
      List.find?_eq_none.mpr (fun u hu => by simpa using hgone u hu)
    have hany2 : (s.users.filter (fun u => u.id != id)).any (fun u => u.id == id) = false := by
      simp only [List.any_eq_false, beq_iff_eq]
      exact hgone
    refine ⟨rfl, rfl, ?_, ?_⟩
    · simp [getUserById, get_user_by_id, hfind]
    · simp [deleteUser, delete_user, hany2]
  · intro h
    have ha : s.users.any (fun u => u.id == id) = false := by
      simp only [List.any_eq_false, beq_iff_eq]
      exact h
    simp [deleteUser, delete_user, ha]

/-- Witness for C8: delete the only user (id 1), then observe 404 on
fetch and re-delete; deleting absent id 9999 answers 404. -/
theorem delete_user_spec_witness :
    ((deleteUser 1 sampleStore).1.status = 204 ∧
     (deleteUser 1 sampleStore).1.body = Json.null ∧
     (getUserById 1 (deleteUser 1 sampleStore).2).status = 404 ∧
     (deleteUser 1 (deleteUser 1 sampleStore).2).1.status = 404) ∧
    (deleteUser 9999 sampleStore).1.status = 404 :=
  ⟨(delete_user_spec 1 sampleStore).1 (by decide),
   (delete_user_spec 9999 sampleStore).2 (by decide)⟩

/-- C9: fetching by an id matching no row answers 404, and fetching by
a username matching no row answers 404, each with a detail mentioning
"not found"; both lookups are pure functions of the state (they return
only a response), so neither can modify the user set. -/
theorem lookup_not_found (id : Nat) (name : String) (s : AppState)
    (hid : ∀ u ∈ s.users, u.id ≠ id)
    (hname : ∀ u ∈ s.users, u.username ≠ name) :
    (getUserById id s).status = 404 ∧
    mentions (getUserById id s) "not found" = true ∧
    (getUserByUsername name s).status = 404 ∧
    mentions (getUserByUsername name s) "not found" = true := by
  have h1 : s.users.find? (fun u => u.id == id) = none :=
    List.find?_eq_none.mpr (fun u hu => by simpa using hid u hu)
  have h2 : s.users.find? (fun u => u.username == name) = none :=
    List.find?_eq_none.mpr (fun u hu => by simpa using hname u hu)
  have hA : getUserById id s =
      { status := 404, body := Json.obj [("detail", Json.str "User not found")] } := by
    simp [getUserById, get_user_by_id, h1]
  have hB : getUserByUsername name s =
      { status := 404, body := Json.obj [("detail", Json.str "User not found")] } := by
    simp [getUserByUsername, get_user_by_username, h2]
  rw [hA, hB]
  exact ⟨rfl, by decide, rfl, by decide⟩

/-- Witness for C9: the test suite's absent id 9999 and absent
username "nonexistent" against a store holding one unrelated user. -/
theorem lookup_not_found_witness :
    (getUserById 9999 sampleStore).status = 404 ∧
    mentions (getUserById 9999 sampleStore) "not found" = true ∧
    (getUserByUsername "nonexistent" sampleStore).status = 404 ∧
    mentions (getUserByUsername "nonexistent" sampleStore) "not found" = true :=
  lookup_not_found 9999 "nonexistent" sampleStore (by decide) (by decide)

/-- C10: when `create_user` succeeds in a reachable state, returning
read-shape `r`, fetching by `r.id` answers 200 with exactly `r`'s body,
fetching by the submitted username answers 200 with the same body, and
`r` carries that username — every created user is immediately
retrievable under both keys. -/
theorem create_get_round_trip (salt : String) (d : UserCreate) (s : AppState)
    (hr : Reachable s) (r : UserRead) (s' : AppState)
    (h : create_user salt d s = (Except.ok r, s')) :
    getUserById r.id s' = { status := 200, body := r.toJson } ∧
    getUserByUsername d.username s' = { status := 200, body := r.toJson } ∧
    r.username = d.username := by
  obtain ⟨_, hwf2, _⟩ := reachable_wf hr
  by_cases hu : ∀ u ∈ s.users, u.username ≠ d.username
  · by_cases he : ∀ u ∈ s.users, u.email ≠ d.email
    · rw [create_user_ok salt hu he] at h
      injection h with h1 h2
      injection h1 with h1
      subst h1
      subst h2
      have hfid : (s.users ++ [newRow salt d s]).find?
          (fun u => u.id == (newRow salt d s).toRead.id) = some (newRow salt d s) := by
        rw [List.find?_append]
        have hnone : s.users.find? (fun u => u.id == (newRow salt d s).toRead.id) = none :=
          List.find?_eq_none.mpr (fun u hu' => by
            simp only [newRow, User.toRead, beq_iff_eq]
            exact Nat.ne_of_lt (hwf2 u hu'))
        rw [hnone]
        simp [newRow, User.toRead]
      have hfname : (s.users ++ [newRow salt d s]).find?
          (fun u => u.username == d.username) = some (newRow salt d s) := by
        rw [List.find?_append]
        have hnone : s.users.find? (fun u => u.username == d.username) = none :=
          List.find?_eq_none.mpr (fun u hu' => by simpa using hu u hu')
        rw [hnone]
        simp [newRow]
      refine ⟨?_, ?_, rfl⟩
      · simp [getUserById, get_user_by_id, hfid]
      · simp [getUserByUsername, get_user_by_username, hfname]
    · push_neg at he
      rw [create_user_dup_email salt hu he] at h
      injection h with h1 _
      exact Except.noConfusion h1
  · push_neg at hu
    rw [create_user_dup_username salt hu] at h
    injection h with h1 _
    exact Except.noConfusion h1

/-- Witness for C10: the first created user (id 1, username
"testuser") is immediately retrievable under both keys. -/
theorem create_get_round_trip_witness :
    getUserById (⟨1, "testuser", "test@example.com", 0⟩ : UserRead).id sampleStore
      = { status := 200, body := (⟨1, "testuser", "test@example.com", 0⟩ : UserRead).toJson } ∧
    getUserByUsername "testuser" sampleStore
      = { status := 200, body := (⟨1, "testuser", "test@example.com", 0⟩ : UserRead).toJson } ∧
    (⟨1, "testuser", "test@example.com", 0⟩ : UserRead).username = "testuser" :=
  create_get_round_trip "s1" ⟨"testuser", "test@example.com", "pass123456"⟩ AppState.init
    Reachable.init ⟨1, "testuser", "test@example.com", 0⟩ sampleStore rfl

end UserService
